import Mathlib

/-!
Verification of the commit-message validator in
`pre_commit_hooks/commit_message_hook.py`.

Lines of the commit message are modelled as `List Char` (Python `str`),
the raw message as a `List (List Char)` (the result of `readlines()`, so
each line normally keeps its trailing newline character).  Every
`sys.exit(1)` in the source is modelled as `Except.error o` for the
`Outcome` describing the diagnostic printed just before the exit; normal
return from `check_commit_msg_pattern` (the OK path) is `Except.ok ()`.
-/

namespace CommitMessageHook

/-- A Python string: a list of characters. -/
abbrev Str := List Char

/-- The ASCII whitespace characters stripped by Python `str.strip()`. -/
def isPySpace (c : Char) : Bool :=
  c = ' ' || c = '\t' || c = '\n' || c = '\r' || c = '\x0b' || c = '\x0c'

/-- Python `str.strip()`: remove leading and trailing whitespace. -/
def pyStrip (l : Str) : Str :=
  ((l.dropWhile isPySpace).reverse.dropWhile isPySpace).reverse

/-- Python `str.isdigit()` (ASCII fragment): nonempty and all characters
are decimal digits. -/
def pyIsdigit (l : Str) : Bool :=
  !l.isEmpty && l.all (fun c => c.isDigit)

/-- Python `pat in line`: substring containment test. -/
def containsSub (pat : Str) : Str → Bool
  | [] => pat.isEmpty
  | c :: rest => pat.isPrefixOf (c :: rest) || containsSub pat rest

/-- `line.strip().startswith("#")`: the comment-line test (source line 58). -/
def isCommentLine (line : Str) : Bool :=
  "#".toList.isPrefixOf (pyStrip line)

/-- Source line 58: `[line for line in commit_message if not
line.strip().startswith("#")]`. -/
def removeComments (msg : List Str) : List Str :=
  msg.filter (fun line => !(isCommentLine line))

/-- Source line 78: `valid_commit_types`. -/
def validCommitTypes : List Str :=
  ["feat".toList, "fix".toList, "refactor".toList, "style".toList,
   "docs".toList, "test".toList, "chore".toList, "revert".toList]

/-- Source line 85: `valid_issue_tracker_tools`. -/
def validIssueTrackerTools : List Str :=
  ["jira".toList, "github".toList, "gitlab".toList, "bitbucket".toList,
   "launchpad".toList, "zendesk".toList]

/-- Source line 86: `valid_issue_tracker_tools_short_names`. -/
def validIssueTrackerShortNames : List Str :=
  ["jr".toList, "gh".toList, "gl".toList, "bb".toList, "lp".toList, "zd".toList]

/-- Source line 87: `valid_issue_tracker_suffixes`. -/
def validIssueTrackerSuffixes : List Str :=
  [":".toList, "/".toList, "#".toList, "-".toList, " ".toList]

/-- Source lines 97-106: `valid_issue_tracker_tools_with_suffixes`, the 60
tokens: first every full tool name with every suffix, then every short
name with every suffix (so the last element appended is `"zd "`). -/
def trackerTokens : List Str :=
  (validIssueTrackerTools.flatMap fun tool =>
    validIssueTrackerSuffixes.map fun suffix => tool ++ suffix)
  ++ (validIssueTrackerShortNames.flatMap fun tool =>
    validIssueTrackerSuffixes.map fun suffix => tool ++ suffix)

/-- Source line 79: `any(title.startswith(commit_type) for commit_type in
valid_commit_types)`. -/
def hasCommitType (title : Str) : Bool :=
  validCommitTypes.any fun ct => ct.isPrefixOf title

/-- Source lines 90-91: the loop testing
`title.startswith(valid_issue_tracker_tool)`; the warning fires when any
full tool name is a prefix of the title. -/
def hasTrackerToolPrefix (title : Str) : Bool :=
  validIssueTrackerTools.any fun tool => tool.isPrefixOf title

/-- Source lines 110-116: the loop over the 60 combined tokens; the
warning fires when some token is a prefix of the title and the rest of
the title after the token is not all digits. -/
def badTrackerToken (title : Str) : Bool :=
  trackerTokens.any fun tok =>
    tok.isPrefixOf title && !(pyIsdigit (title.drop tok.length))

/-- The terminal outcome of `check_commit_msg_pattern`: which diagnostic
was printed last (each non-`ok` outcome is followed by `sys.exit(1)` in
the source; `trackerPrintExit tok` is the bare `print(tok); sys.exit(1)`
at lines 118-119, which prints no coloured diagnostic). -/
inductive Outcome
  | structureError
  | titleTooLong
  | missingCommitType
  | trackerCollision
  | malformedTracker
  | trackerPrintExit (token : Str)
  | missingSeparator
  | bodyLineTooLong
  | missingStoryId
  | ok
  deriving DecidableEq

/-- Source lines 127-157: the statements after the unconditional
`sys.exit(1)` of line 119 — the blank-separator check, the body
line-length loop, the story-ID check and the final OK print.  (The
`has_warning` flag is `False` whenever this point would be reached, since
every assignment of `True` is immediately followed by `sys.exit(1)`, so
the guarded OK print is modelled as unconditional.) -/
def afterTrackerExit (commitMessage : List Str) : Except Outcome Unit :=
  if pyStrip (commitMessage.getD 1 []) ≠ [] then
    Except.error Outcome.missingSeparator
  else if (commitMessage.drop 2).any (fun line => line.length > 72) then
    Except.error Outcome.bodyLineTooLong
  else if !((commitMessage.drop 2).any (fun line => containsSub "[#".toList line)) then
    Except.error Outcome.missingStoryId
  else
    Except.ok ()

/-- `check_commit_msg_pattern` (source lines 45-157), with the path of the
commit-message temp file replaced by the list of lines it contains.  The
`>>=` after the `trackerPrintExit` error mirrors the source exactly: the
statements of `afterTrackerExit` follow the `print`/`sys.exit(1)` of
lines 118-119 in program order, and control never reaches them. -/
def checkE (rawLines : List Str) : Except Outcome Unit :=
  let commitMessage := removeComments rawLines
  if commitMessage.length < 4 then
    Except.error Outcome.structureError
  else
    let title := commitMessage.getD 0 []
    if title.length > 50 then
      Except.error Outcome.titleTooLong
    else if !(hasCommitType title) then
      Except.error Outcome.missingCommitType
    else if hasTrackerToolPrefix title then
      Except.error Outcome.trackerCollision
    else if badTrackerToken title then
      Except.error Outcome.malformedTracker
    else
      (Except.error (Outcome.trackerPrintExit (trackerTokens.getLastD [])) :
          Except Outcome Unit) >>= fun _ =>
        afterTrackerExit commitMessage

/-- The outcome of a run: the diagnostic at which the validator stopped,
or `ok` when `check_commit_msg_pattern` returns normally. -/
def check (rawLines : List Str) : Outcome :=
  match checkE rawLines with
  | Except.error o => o
  | Except.ok _ => Outcome.ok

/-- The severity levels of `Level` in the source. -/
inductive Level
  | OK
  | INFO
  | WARNING
  | ERROR
  deriving DecidableEq

/-- The severity of the coloured diagnostic printed for each outcome
(`none` for `trackerPrintExit`, whose `print` carries no level). -/
def levelOf : Outcome → Option Level
  | Outcome.structureError => some Level.ERROR
  | Outcome.titleTooLong => some Level.WARNING
  | Outcome.missingCommitType => some Level.WARNING
  | Outcome.trackerCollision => some Level.WARNING
  | Outcome.malformedTracker => some Level.WARNING
  | Outcome.trackerPrintExit _ => none
  | Outcome.missingSeparator => some Level.WARNING
  | Outcome.bodyLineTooLong => some Level.WARNING
  | Outcome.missingStoryId => some Level.WARNING
  | Outcome.ok => some Level.OK

/-- The text of the diagnostic printed for each outcome, as built in the
source (`none` for `trackerPrintExit`, which prints the token itself). -/
def messageOf : Outcome → Option Str
  | Outcome.structureError =>
      some "There should at least 4 lines in your commit message.".toList
  | Outcome.titleTooLong =>
      some "There should be less then 50 characters in the commit title.".toList
  | Outcome.missingCommitType =>
      some ("The commit title needs to have a commit type: ".toList
        ++ List.intercalate ", ".toList validCommitTypes)
  | Outcome.trackerCollision =>
      some ("The commit title needs to have a commit type: ".toList
        ++ List.intercalate ", ".toList validCommitTypes)
  | Outcome.malformedTracker =>
      some ("The commit title needs to have a issue track tool code and number type: ".toList
        ++ List.intercalate ", ".toList validCommitTypes)
  | Outcome.trackerPrintExit _ => none
  | Outcome.missingSeparator =>
      some "There should be an empty line between the commit title and body.".toList
  | Outcome.bodyLineTooLong =>
      some "The commit body should wrap at 72 characters.".toList
  | Outcome.missingStoryId =>
      some "Please add a Story ID in the commit message.".toList
  | Outcome.ok =>
      some "The commit message has the required pattern.".toList

/-- The process exit status: `sys.exit(1)` on every non-`ok` outcome,
`main`'s `return 0` on the OK path. -/
def exitCode : Outcome → Nat
  | Outcome.ok => 0
  | _ => 1

/-- `main` (source lines 160-163) composed with the run of
`check_commit_msg_pattern` on the given lines. -/
def mainExitCode (rawLines : List Str) : Nat :=
  exitCode (check rawLines)

/-- `title = commit_message[0]` (source line 68), as a function of the raw
lines. -/
def titleOf (rawLines : List Str) : Str :=
  (removeComments rawLines).getD 0 []

lemma check_eq_structureError {rawLines : List Str}
    (h : (removeComments rawLines).length < 4) :
    check rawLines = Outcome.structureError := by
  simp [check, checkE, h]

lemma check_eq_titleTooLong {rawLines : List Str}
    (h4 : ¬ (removeComments rawLines).length < 4)
    (h50 : (titleOf rawLines).length > 50) :
    check rawLines = Outcome.titleTooLong := by
  simp [titleOf] at h50
  simp [check, checkE, h4, h50]

lemma check_eq_missingCommitType {rawLines : List Str}
    (h4 : ¬ (removeComments rawLines).length < 4)
    (h50 : ¬ (titleOf rawLines).length > 50)
    (hty : hasCommitType (titleOf rawLines) = false) :
    check rawLines = Outcome.missingCommitType := by
  simp [titleOf] at h50 hty
  simp [check, checkE, h4, Nat.not_lt.mpr h50, hty]

lemma check_eq_trackerCollision {rawLines : List Str}
    (h4 : ¬ (removeComments rawLines).length < 4)
    (h50 : ¬ (titleOf rawLines).length > 50)
    (hty : hasCommitType (titleOf rawLines) = true)
    (htool : hasTrackerToolPrefix (titleOf rawLines) = true) :
    check rawLines = Outcome.trackerCollision := by
  simp [titleOf] at h50 hty htool
  simp [check, checkE, h4, Nat.not_lt.mpr h50, hty, htool]

lemma check_eq_malformedTracker {rawLines : List Str}
    (h4 : ¬ (removeComments rawLines).length < 4)
    (h50 : ¬ (titleOf rawLines).length > 50)
    (hty : hasCommitType (titleOf rawLines) = true)
    (htool : hasTrackerToolPrefix (titleOf rawLines) = false)
    (htok : badTrackerToken (titleOf rawLines) = true) :
    check rawLines = Outcome.malformedTracker := by
  simp [titleOf] at h50 hty htool htok
  simp [check, checkE, h4, Nat.not_lt.mpr h50, hty, htool, htok]

lemma check_eq_trackerPrintExit {rawLines : List Str}
    (h4 : ¬ (removeComments rawLines).length < 4)
    (h50 : ¬ (titleOf rawLines).length > 50)
    (hty : hasCommitType (titleOf rawLines) = true)
    (htool : hasTrackerToolPrefix (titleOf rawLines) = false)
    (htok : badTrackerToken (titleOf rawLines) = false) :
    check rawLines = Outcome.trackerPrintExit (trackerTokens.getLastD []) := by
  simp [titleOf] at h50 hty htool htok
  simp [check, checkE, h4, Nat.not_lt.mpr h50, hty, htool, htok]
  rfl

lemma trackerTokens_getLastD : trackerTokens.getLastD [] = "zd ".toList := by
  decide

/-- A title that starts with one of the eight commit types starts with
one of the characters `f`, `r`, `s`, `d`, `t`, `c`. -/
lemma head_of_commitType {title : Str} (h : hasCommitType title = true) :
    ∃ c rest, title = c :: rest ∧ c ∈ ['f', 'r', 's', 'd', 't', 'c'] := by
  simp only [hasCommitType, validCommitTypes, List.any_eq_true, List.mem_cons,
    List.not_mem_nil, or_false] at h
  obtain ⟨ct, hmem, hpre⟩ := h
  simp only [List.isPrefixOf_iff_prefix] at hpre
  obtain ⟨t, rfl⟩ := hpre
  rcases hmem with rfl | rfl | rfl | rfl | rfl | rfl | rfl | rfl <;>
    exact ⟨_, _, rfl, by decide⟩

/-- Every full tracker-tool name is nonempty and starts with one of the
characters `j`, `g`, `b`, `l`, `z`. -/
lemma trackerTools_heads :
    ∀ l ∈ validIssueTrackerTools, l ≠ [] ∧ l.headD ' ' ∈ ['j', 'g', 'b', 'l', 'z'] := by
  decide

/-- Every one of the 60 combined tracker tokens is nonempty and starts
with one of the characters `j`, `g`, `b`, `l`, `z`. -/
lemma trackerTokens_heads :
    ∀ l ∈ trackerTokens, l ≠ [] ∧ l.headD ' ' ∈ ['j', 'g', 'b', 'l', 'z'] := by
  decide

/-- A title that starts with a commit type cannot also start with a full
tracker-tool name: the possible first characters are disjoint. -/
lemma no_toolPrefix_of_commitType {title : Str} (h : hasCommitType title = true) :
    hasTrackerToolPrefix title = false := by
  obtain ⟨c, rest, rfl, hc⟩ := head_of_commitType h
  rw [hasTrackerToolPrefix, List.any_eq_false]
  intro tool hmem
  obtain ⟨hne, hhead⟩ := trackerTools_heads tool hmem
  cases tool with
  | nil => exact absurd rfl hne
  | cons d tl =>
    simp only [List.headD_cons] at hhead
    simp only [List.isPrefixOf_cons₂, Bool.and_eq_true, beq_iff_eq, not_and]
    intro hdc
    subst hdc
    exact absurd hhead (by fin_cases hc <;> decide)

/-- A title that starts with a commit type cannot start with any of the
60 combined tracker tokens, so the malformed-reference test never fires. -/
lemma no_badToken_of_commitType {title : Str} (h : hasCommitType title = true) :
    badTrackerToken title = false := by
  obtain ⟨c, rest, rfl, hc⟩ := head_of_commitType h
  rw [badTrackerToken, List.any_eq_false]
  intro tok hmem
  obtain ⟨hne, hhead⟩ := trackerTokens_heads tok hmem
  cases tok with
  | nil => exact absurd rfl hne
  | cons d tl =>
    simp only [List.headD_cons] at hhead
    simp only [List.isPrefixOf_cons₂, Bool.and_eq_true, beq_iff_eq, not_and]
    intro hpre
    rcases hpre with ⟨hdc, -⟩
    subst hdc
    exact absurd hhead (by fin_cases hc <;> decide)

/-- C1: for every input message that passes the minimum-structure,
title-length, commit-type and tracker-name checks and so reaches the end
of the 60-token tracker-reference loop, the validator prints the last
tracker-token variable (`"zd "`) and terminates with a non-zero exit, so
the blank-separator check, the body line-length check, the story-ID check
and the OK path are never executed for any such input. -/
theorem claim1_unconditional_exit_after_tracker_loop (rawLines : List Str)
    (h4 : ¬ (removeComments rawLines).length < 4)
    (h50 : ¬ (titleOf rawLines).length > 50)
    (hty : hasCommitType (titleOf rawLines) = true)
    (htool : hasTrackerToolPrefix (titleOf rawLines) = false)
    (htok : badTrackerToken (titleOf rawLines) = false) :
    check rawLines = Outcome.trackerPrintExit ("zd ".toList) ∧
    mainExitCode rawLines ≠ 0 ∧
    check rawLines ≠ Outcome.missingSeparator ∧
    check rawLines ≠ Outcome.bodyLineTooLong ∧
    check rawLines ≠ Outcome.missingStoryId ∧
    check rawLines ≠ Outcome.ok := by
  have hc := check_eq_trackerPrintExit h4 h50 hty htool htok
  rw [trackerTokens_getLastD] at hc
  refine ⟨hc, ?_, ?_, ?_, ?_, ?_⟩ <;> simp [mainExitCode, hc, exitCode]

/-- A concrete input that reaches the end of the tracker loop. -/
def claim1Lines : List Str :=
  ["fix: tidy the loader\n".toList, "\n".toList, "cleanup [#7]\n".toList, "\n".toList]

theorem claim1_unconditional_exit_after_tracker_loop_witness :
    (¬ (removeComments claim1Lines).length < 4) ∧
    (¬ (titleOf claim1Lines).length > 50) ∧
    hasCommitType (titleOf claim1Lines) = true ∧
    hasTrackerToolPrefix (titleOf claim1Lines) = false ∧
    badTrackerToken (titleOf claim1Lines) = false ∧
    check claim1Lines = Outcome.trackerPrintExit ("zd ".toList) :=
  ⟨by decide, by decide, by decide, by decide, by decide,
    (claim1_unconditional_exit_after_tracker_loop claim1Lines
      (by decide) (by decide) (by decide) (by decide) (by decide)).1⟩

/-- The input lines of end-to-end example 1 of the spec. -/
def example1Lines : List Str :=
  ["feat: add login\n".toList, "\n".toList,
   "implements oauth [#123]\n".toList, "\n".toList]

/-- C2 (code bug): the spec says example 1 yields verdict OK and exit
status 0, but the code prints the last tracker token `"zd "` and exits 1
because of the unconditional `print`/`sys.exit(1)` after the tracker
loop; the OK diagnostic is never reached. -/
theorem claim2_example1_exits_nonzero :
    check example1Lines = Outcome.trackerPrintExit ("zd ".toList) ∧
    check example1Lines ≠ Outcome.ok ∧
    mainExitCode example1Lines = 1 := by
  refine ⟨by decide, by decide, by decide⟩

/-- A title of the form type ++ tracker token ++ digits (`featgh#123`). -/
def claim3Lines : List Str :=
  ["featgh#123\n".toList, "\n".toList, "adds login [#123]\n".toList, "\n".toList]

/-- C3 (code bug): for a title of form type ++ tracker token ++ digits,
step 6 indeed emits no violation, but processing does not continue to the
blank-separator check: the code prints the last tracker token and exits 1
unconditionally. -/
theorem claim3_no_continuation_to_separator_check :
    badTrackerToken (titleOf claim3Lines) = false ∧
    check claim3Lines = Outcome.trackerPrintExit ("zd ".toList) ∧
    check claim3Lines ≠ Outcome.malformedTracker ∧
    check claim3Lines ≠ Outcome.missingSeparator ∧
    mainExitCode claim3Lines = 1 := by
  refine ⟨by decide, by decide, by decide, by decide, by decide⟩

/-- A title of the form type ++ tracker token ++ non-digits
(`featgh#abc`). -/
def claim4Lines : List Str :=
  ["featgh#abc\n".toList, "\n".toList, "does things [#5]\n".toList, "\n".toList]

/-- C4 (code bug): for a title of form type ++ tracker token ++
non-digits the spec says the malformed-tracker-reference warning is
reported, but the code matches tracker tokens only at position 0 of the
title (not after the type prefix), so the warning never fires and the
run ends in the unconditional tracker-token print and exit 1. -/
theorem claim4_no_malformed_tracker_warning :
    check claim4Lines ≠ Outcome.malformedTracker ∧
    check claim4Lines = Outcome.trackerPrintExit ("zd ".toList) ∧
    mainExitCode claim4Lines = 1 := by
  refine ⟨by decide, by decide, by decide⟩

/-- The input lines of end-to-end example 2 of the spec. -/
def example2Lines : List Str :=
  ["fix bug\n".toList, "body text\n".toList, "\n".toList, "\n".toList]

/-- C5 (code bug): the spec says example 2 yields the missing-blank-line
warning, but the blank-separator check is dead code behind the
unconditional `print`/`sys.exit(1)` after the tracker loop, so the code
prints the last tracker token and exits 1 instead. -/
theorem claim5_no_separator_warning :
    check example2Lines = Outcome.trackerPrintExit ("zd ".toList) ∧
    check example2Lines ≠ Outcome.missingSeparator ∧
    mainExitCode example2Lines = 1 := by
  refine ⟨by decide, by decide, by decide⟩

/-- C6: every input whose cleaned message has fewer than 4 lines yields
the structure ERROR outcome, verdict error, exit status 1, and no further
check is performed (the outcome is exactly `structureError`). -/
theorem claim6_structure_error_on_short_message (rawLines : List Str)
    (h : (removeComments rawLines).length < 4) :
    check rawLines = Outcome.structureError ∧
    levelOf (check rawLines) = some Level.ERROR ∧
    mainExitCode rawLines = 1 := by
  have hc := check_eq_structureError h
  exact ⟨hc, by rw [hc]; rfl, by simp [mainExitCode, hc, exitCode]⟩

theorem claim6_structure_error_on_short_message_witness :
    (removeComments ["fix\n".toList]).length < 4 ∧
    check ["fix\n".toList] = Outcome.structureError :=
  ⟨by decide,
    (claim6_structure_error_on_short_message ["fix\n".toList] (by decide)).1⟩

/-- C7: with at least 4 cleaned lines and a title within the length
limit, a title that starts with no commit type (and with no full tracker
name) yields the missing-commit-type WARNING and nothing tracker-related. -/
theorem claim7_missing_commit_type_warning (rawLines : List Str)
    (h4 : ¬ (removeComments rawLines).length < 4)
    (h50 : ¬ (titleOf rawLines).length > 50)
    (hty : hasCommitType (titleOf rawLines) = false)
    (htool : hasTrackerToolPrefix (titleOf rawLines) = false) :
    check rawLines = Outcome.missingCommitType ∧
    levelOf (check rawLines) = some Level.WARNING ∧
    mainExitCode rawLines = 1 ∧
    check rawLines ≠ Outcome.trackerCollision ∧
    check rawLines ≠ Outcome.malformedTracker := by
  have hc := check_eq_missingCommitType h4 h50 hty
  refine ⟨hc, by rw [hc]; rfl, by simp [mainExitCode, hc, exitCode], ?_, ?_⟩ <;>
    simp [hc]

/-- The input of end-to-end example 3 of the spec: title `gh#456`. -/
def example3Lines : List Str :=
  ["gh#456\n".toList, "\n".toList, "short note [#456]\n".toList, "\n".toList]

theorem claim7_missing_commit_type_warning_witness :
    (¬ (removeComments example3Lines).length < 4) ∧
    (¬ (titleOf example3Lines).length > 50) ∧
    hasCommitType (titleOf example3Lines) = false ∧
    hasTrackerToolPrefix (titleOf example3Lines) = false ∧
    check example3Lines = Outcome.missingCommitType :=
  ⟨by decide, by decide, by decide, by decide,
    (claim7_missing_commit_type_warning example3Lines
      (by decide) (by decide) (by decide) (by decide)).1⟩

/-- C8: with at least 4 cleaned lines, the title-length warning is the
outcome if and only if the title line (including its newline character)
is strictly longer than 50 characters. -/
theorem claim8_title_length_warning_iff (rawLines : List Str)
    (h4 : ¬ (removeComments rawLines).length < 4) :
    (check rawLines = Outcome.titleTooLong ↔ 50 < (titleOf rawLines).length) := by
  constructor
  · intro hc
    by_contra hle
    have h50 : ¬ (titleOf rawLines).length > 50 := hle
    cases hty : hasCommitType (titleOf rawLines) with
    | false =>
      rw [check_eq_missingCommitType h4 h50 hty] at hc
      exact absurd hc (by simp)
    | true =>
      cases htool : hasTrackerToolPrefix (titleOf rawLines) with
      | false =>
        cases htok : badTrackerToken (titleOf rawLines) with
        | false =>
          rw [check_eq_trackerPrintExit h4 h50 hty htool htok] at hc
          exact absurd hc (by simp)
        | true =>
          rw [check_eq_malformedTracker h4 h50 hty htool htok] at hc
          exact absurd hc (by simp)
      | true =>
        rw [check_eq_trackerCollision h4 h50 hty htool] at hc
        exact absurd hc (by simp)
  · intro h50
    exact check_eq_titleTooLong h4 h50

/-- An input whose title (with its newline) has 58 characters. -/
def claim8Lines : List Str :=
  ["feat: a title that is much too long to pass the check OK\n".toList,
   "\n".toList, "body [#9]\n".toList, "\n".toList]

theorem claim8_title_length_warning_iff_witness :
    (¬ (removeComments claim8Lines).length < 4) ∧
    (check claim8Lines = Outcome.titleTooLong ↔ 50 < (titleOf claim8Lines).length) :=
  ⟨by decide, claim8_title_length_warning_iff claim8Lines (by decide)⟩

/-- C9: comment stripping is idempotent: filtering out comment lines
twice yields the same cleaned message as filtering once. -/
theorem claim9_removeComments_idempotent (msg : List Str) :
    removeComments (removeComments msg) = removeComments msg := by
  simp [removeComments, List.filter_filter]

/-- C10: on no input whatsoever does the validator produce the
tracker-collision warning of step 5 or the malformed-tracker-reference
warning of step 6: both tracker checks match at position 0 of the title,
which by then is known to start with a commit type, and no tracker name
or token shares a first character with any commit type. -/
theorem claim10_tracker_warnings_unreachable (rawLines : List Str) :
    check rawLines ≠ Outcome.trackerCollision ∧
    check rawLines ≠ Outcome.malformedTracker := by
  have key : check rawLines = Outcome.structureError ∨
      check rawLines = Outcome.titleTooLong ∨
      check rawLines = Outcome.missingCommitType ∨
      check rawLines = Outcome.trackerPrintExit (trackerTokens.getLastD []) := by
    by_cases h4 : (removeComments rawLines).length < 4
    · exact Or.inl (check_eq_structureError h4)
    · by_cases h50 : (titleOf rawLines).length > 50
      · exact Or.inr (Or.inl (check_eq_titleTooLong h4 h50))
      · cases hty : hasCommitType (titleOf rawLines) with
        | false =>
          exact Or.inr (Or.inr (Or.inl (check_eq_missingCommitType h4 h50 hty)))
        | true =>
          have htool := no_toolPrefix_of_commitType hty
          have htok := no_badToken_of_commitType hty
          exact Or.inr (Or.inr (Or.inr
            (check_eq_trackerPrintExit h4 h50 hty htool htok)))
  rcases key with hc | hc | hc | hc <;> rw [hc] <;> exact ⟨by simp, by simp⟩

end CommitMessageHook
